import Mathlib

/-!
Shallow embedding of the spaced-repetition scheduler
(src/spaced-repetition.js, class SpacedRepetitionSystem).

Modelling conventions:
* Timestamps are natural numbers counting days; the JS code adds whole
  days via setDate, so day granularity is faithful for every property here.
  Each operation receives the current wall-clock time as an explicit
  argument now, mirroring the single new Date() reading the code makes.
* The persisted store (the JSON object under the localStorage key) is an
  association list from composite keys to items; JS objects have unique
  keys and iterate in insertion order, which the list models directly.
* Mutating operations return an OpResult bundling the store that is
  persisted afterwards, whether saveAllData was called, and which console
  channels fired, so that persistence and logging behaviour can be stated.
* Optional level and type arguments are JS values tested by truthiness;
  FilterArg models the values a caller can pass (null or the default,
  a string, a number), with JS truthiness and strict equality.
-/

namespace SpacedRepetition

/-- The fixed review interval ladder in days, field intervals of the class. -/
def intervals : List Nat := [1, 3, 7, 14, 30]

/-- calculateNextReview from the source: today plus
intervals[min(reviewCount, intervals.length - 1)] days. -/
def calculateNextReview (now : Nat) (reviewCount : Nat) : Nat :=
  now + intervals.getD (min reviewCount (intervals.length - 1)) 0

/-- One tracked learning unit, the object stored under a composite key. -/
structure ReviewItem where
  level : String
  type : String
  id : Nat
  data : String
  savedDate : Nat
  lastReviewed : Option Nat
  reviewCount : Nat
  nextReviewDate : Nat
  lastModified : Nat
deriving Repr, DecidableEq

/-- The whole persisted mapping, key to item, in insertion order. -/
abbrev Store := List (String × ReviewItem)

/-- Key lookup in the store, the JS access allData[key]. -/
def lookup (key : String) (store : Store) : Option ReviewItem :=
  (List.find? (fun e => e.1 == key) store).map (·.2)

/-- The composite key string level_type_id. -/
def mkKey (level ty : String) (id : Nat) : String :=
  level ++ "_" ++ ty ++ "_" ++ toString id

/-- Result of one mutating call: the store that is persisted afterwards
(unchanged when no write happened), whether saveAllData ran, and whether
console.error respectively console.log fired during the call. -/
structure OpResult where
  store : Store
  persisted : Bool
  loggedError : Bool
  loggedInfo : Bool
deriving Repr, DecidableEq

/-- saveItem from the source: payload-only update when the key exists,
otherwise append a fresh item; always persists and logs a success line. -/
def saveItem (now : Nat) (level ty : String) (id : Nat) (data : String)
    (store : Store) : OpResult :=
  match lookup (mkKey level ty id) store with
  | some _ =>
      ⟨List.map (fun e =>
          if e.1 == mkKey level ty id then (e.1, { e.2 with data := data, lastModified := now }) else e) store,
        true, false, true⟩
  | none =>
      ⟨store ++ [(mkKey level ty id,
        { level := level, type := ty, id := id, data := data,
          savedDate := now, lastReviewed := none, reviewCount := 0,
          nextReviewDate := calculateNextReview now 0, lastModified := now })],
        true, false, true⟩

/-- reviewItem from the source: missing key logs an error and returns
without writing; otherwise lastReviewed is set to now, the count is bumped
or reset, the next review date recomputed, and the store persisted. -/
def reviewItem (now : Nat) (key : String) (remembered : Bool)
    (store : Store) : OpResult :=
  match lookup key store with
  | none => ⟨store, false, true, false⟩
  | some _ =>
      let upd : ReviewItem → ReviewItem := fun item =>
        let item1 := { item with lastReviewed := some now }
        if remembered then
          { item1 with reviewCount := item1.reviewCount + 1,
                       nextReviewDate := calculateNextReview now (item1.reviewCount + 1) }
        else
          { item1 with reviewCount := 0,
                       nextReviewDate := calculateNextReview now 0 }
      ⟨List.map (fun e => if e.1 == key then (e.1, upd e.2) else e) store,
        true, false, true⟩

/-- deleteItem from the source: removes the entry and persists when the key
is present (logging a success line); complete no-op, with no log, when absent. -/
def deleteItem (key : String) (store : Store) : OpResult :=
  match lookup key store with
  | some _ => ⟨List.filter (fun e => !(e.1 == key)) store, true, false, true⟩
  | none => ⟨store, false, false, false⟩

/-- A JS value passed as an optional level or type filter argument. The
default parameter value null also stands for an omitted or undefined
argument, since the default kicks in for undefined. -/
inductive FilterArg where
  | jsNull
  | str (s : String)
  | num (n : Int)
deriving Repr, DecidableEq

/-- JS truthiness of a filter argument. -/
def truthy : FilterArg → Bool
  | .jsNull => false
  | .str s => !(s == "")
  | .num n => !(n == 0)

/-- JS strict equality of a filter argument against a string field; a
number is never strictly equal to a string. -/
def strictEq : FilterArg → String → Bool
  | .jsNull, _ => false
  | .str s, v => s == v
  | .num _, _ => false

/-- The guard if (level and item.level !== level) continue, as the
condition for keeping an entry. -/
def keepFilter (filt : FilterArg) (v : String) : Bool :=
  !(truthy filt) || strictEq filt v

/-- The loop body filter of getDueItems: level and type guards plus the
inclusive due test nextReview <= today. -/
def dueKeep (now : Nat) (lf tf : FilterArg) (e : String × ReviewItem) : Bool :=
  keepFilter lf e.2.level && keepFilter tf e.2.type && decide (e.2.nextReviewDate ≤ now)

/-- The ascending comparator of getDueItems, on nextReviewDate. The JS
comparator subtracts the two dates; the sort is stable, so any stable sort
by this total preorder produces the same list. -/
def dueLe (a b : String × ReviewItem) : Prop :=
  a.2.nextReviewDate ≤ b.2.nextReviewDate

instance : DecidableRel dueLe := fun a b => Nat.decLe a.2.nextReviewDate b.2.nextReviewDate

instance : IsTotal (String × ReviewItem) dueLe :=
  ⟨fun a b => Nat.le_total a.2.nextReviewDate b.2.nextReviewDate⟩

instance : IsTrans (String × ReviewItem) dueLe := ⟨fun _ _ _ => Nat.le_trans⟩

/-- getDueItems from the source: filter then stable-sort ascending by
nextReviewDate. Read-only by construction, returning only a list. -/
def getDueItems (now : Nat) (lf tf : FilterArg) (store : Store) :
    List (String × ReviewItem) :=
  List.insertionSort dueLe (List.filter (dueKeep now lf tf) store)

/-- The loop body filter of getAllItems: only the level and type guards. -/
def allKeep (lf tf : FilterArg) (e : String × ReviewItem) : Bool :=
  keepFilter lf e.2.level && keepFilter tf e.2.type

/-- The descending comparator of getAllItems, on savedDate. -/
def savedDesc (a b : String × ReviewItem) : Prop :=
  b.2.savedDate ≤ a.2.savedDate

instance : DecidableRel savedDesc := fun a b => Nat.decLe b.2.savedDate a.2.savedDate

instance : IsTotal (String × ReviewItem) savedDesc :=
  ⟨fun a b => Nat.le_total b.2.savedDate a.2.savedDate⟩

instance : IsTrans (String × ReviewItem) savedDesc := ⟨fun _ _ _ h h2 => Nat.le_trans h2 h⟩

/-- getAllItems from the source: filter then stable-sort descending by
savedDate. Read-only by construction, returning only a list. -/
def getAllItems (lf tf : FilterArg) (store : Store) :
    List (String × ReviewItem) :=
  List.insertionSort savedDesc (List.filter (allKeep lf tf) store)

/-- The per-level sub-report inside the statistics. -/
structure LevelStats where
  total : Nat
  dueToday : Nat
  vocab : Nat
  sentences : Nat
deriving Repr, DecidableEq

/-- The report returned by getStatistics. -/
structure StatsReport where
  total : Nat
  dueToday : Nat
  reviewed : Nat
  mastered : Nat
  byLevel : List (String × LevelStats)
deriving Repr, DecidableEq

/-- The six fixed levels the statistics fan out over. -/
def levels : List String := ["a1", "a2", "b1", "b2", "c1", "c2"]

/-- getStatistics from the source: the outer counters come from
getAllItems(level) and getDueItems(level), while byLevel is built from the
six fixed level strings regardless of the argument. -/
def getStatistics (now : Nat) (level : FilterArg) (store : Store) : StatsReport :=
  let allItems := getAllItems level .jsNull store
  let dueItems := getDueItems now level .jsNull store
  { total := allItems.length
    dueToday := dueItems.length
    reviewed := (List.filter (fun e => decide (0 < e.2.reviewCount)) allItems).length
    mastered := (List.filter (fun e => decide (intervals.length - 1 ≤ e.2.reviewCount)) allItems).length
    byLevel := levels.map (fun lvl =>
      let levelItems := getAllItems (.str lvl) .jsNull store
      let levelDue := getDueItems now (.str lvl) .jsNull store
      (lvl,
        { total := levelItems.length
          dueToday := levelDue.length
          vocab := (List.filter (fun e => e.2.type == "vocab") levelItems).length
          sentences := (List.filter (fun e => e.2.type == "sentence") levelItems).length })) }

/-- A parsed JSON value, the possible results of JSON.parse on the import
file contents. -/
inductive JsonValue where
  | null
  | bool (b : Bool)
  | num (n : Int)
  | str (s : String)
  | arr (xs : List JsonValue)
  | obj (fields : List (String × JsonValue))

/-- Whether a JSON value has the object shape of the store. -/
def isObjShape : JsonValue → Bool
  | .obj _ => true
  | _ => false

/-- Outcome of one importData call: the returned boolean, whether the
alert fired, the persisted blob afterwards, and whether saveAllData ran. -/
structure ImportResult where
  ret : Bool
  alerted : Bool
  blob : JsonValue
  persisted : Bool

/-- importData from the source, at the JSON.parse boundary: parsed is the
outcome of JSON.parse on the file contents (none when it throws), confirmed
is the answer to the overwrite confirmation, blob is the currently
persisted store blob. A parse failure alerts and returns false; any parsed
value proceeds to the confirmation and, on yes, replaces the blob. -/
def importData (parsed : Option JsonValue) (confirmed : Bool)
    (blob : JsonValue) : ImportResult :=
  match parsed with
  | none => ⟨false, true, blob, false⟩
  | some d => if confirmed then ⟨true, false, d, true⟩ else ⟨false, false, blob, false⟩

/-- C1: calculateNextReview(reviewCount) returns now plus
intervals[min(reviewCount, intervals.length - 1)] days over the ladder
[1,3,7,14,30]; for every reviewCount at least 4 it adds exactly 30 days,
and at reviewCount = 0 it adds exactly 1 day. It is a pure function of now
and reviewCount. -/
theorem calculateNextReview_spec (now rc : Nat) :
    calculateNextReview now rc = now + intervals.getD (min rc (intervals.length - 1)) 0
    ∧ (4 ≤ rc → calculateNextReview now rc = now + 30)
    ∧ calculateNextReview now 0 = now + 1 := by
  refine ⟨rfl, ?_, rfl⟩
  intro h
  have hmin : min rc (intervals.length - 1) = 4 := by
    show min rc 4 = 4
    omega
  show now + intervals.getD (min rc (intervals.length - 1)) 0 = now + 30
  rw [hmin]
  rfl

/-- Witness for C1 at now = 100, reviewCount = 7. -/
theorem calculateNextReview_spec_witness :
    calculateNextReview 100 7 = 130 :=
  (calculateNextReview_spec 100 7).2.1 (by decide)

/-- A sample stored item used by the concrete witnesses. -/
def sampleItem : ReviewItem :=
  { level := "a1", type := "vocab", id := 1, data := "cat", savedDate := 0,
    lastReviewed := none, reviewCount := 2, nextReviewDate := 3, lastModified := 0 }

/-- C2: on a key present in the store, reviewItem sets lastReviewed to now
and then either increments reviewCount and recomputes nextReviewDate from
the new count (remembered) or resets reviewCount to 0 and recomputes from 0
(forgotten, a full ladder restart); every other entry is untouched and the
whole store is persisted. -/
theorem reviewItem_found (now : Nat) (key : String) (rem : Bool)
    (store : Store) (item : ReviewItem) (h : lookup key store = some item) :
    reviewItem now key rem store =
      ⟨List.map (fun e =>
          if e.1 == key then
            (e.1, { e.2 with
                    lastReviewed := some now,
                    reviewCount := if rem then e.2.reviewCount + 1 else 0,
                    nextReviewDate :=
                      calculateNextReview now (if rem then e.2.reviewCount + 1 else 0) })
          else e) store,
        true, false, true⟩ := by
  unfold reviewItem
  rw [h]
  cases rem <;> rfl

/-- Witness for C2: reviewing the sample store at now = 10 with
remembered = true bumps the count from 2 to 3 and schedules 14 days out. -/
theorem reviewItem_found_witness :
    reviewItem 10 "a1_vocab_1" true [("a1_vocab_1", sampleItem)] =
      ⟨[("a1_vocab_1",
          { sampleItem with lastReviewed := some 10, reviewCount := 3, nextReviewDate := 24 })],
        true, false, true⟩ := by
  rw [reviewItem_found 10 "a1_vocab_1" true [("a1_vocab_1", sampleItem)] sampleItem rfl]
  rfl

/-- C3: on an existing composite key, saveItem replaces only the data
payload and refreshes lastModified; reviewCount, nextReviewDate,
lastReviewed and savedDate of that item, and every other entry of the
store, are unchanged, and the store is persisted. -/
theorem saveItem_existing (now : Nat) (level ty : String) (id : Nat)
    (d : String) (store : Store) (item : ReviewItem)
    (h : lookup (mkKey level ty id) store = some item) :
    saveItem now level ty id d store =
      ⟨List.map (fun e =>
          if e.1 == mkKey level ty id then
            (e.1, { e.2 with data := d, lastModified := now })
          else e) store,
        true, false, true⟩ := by
  unfold saveItem
  rw [h]

/-- Witness for C3: re-saving the sample item at now = 10 with a new
payload changes only data and lastModified. -/
theorem saveItem_existing_witness :
    saveItem 10 "a1" "vocab" 1 "dog" [("a1_vocab_1", sampleItem)] =
      ⟨[("a1_vocab_1", { sampleItem with data := "dog", lastModified := 10 })],
        true, false, true⟩ := by
  rw [saveItem_existing 10 "a1" "vocab" 1 "dog" [("a1_vocab_1", sampleItem)] sampleItem rfl]
  rfl

/-- C4: on an absent composite key, saveItem appends a fresh item with
reviewCount = 0, nextReviewDate = now + intervals[0] days = now + 1,
lastReviewed = null and savedDate = lastModified = now, and persists the
store. -/
theorem saveItem_new (now : Nat) (level ty : String) (id : Nat)
    (d : String) (store : Store)
    (h : lookup (mkKey level ty id) store = none) :
    saveItem now level ty id d store =
      ⟨store ++ [(mkKey level ty id,
        { level := level, type := ty, id := id, data := d, savedDate := now,
          lastReviewed := none, reviewCount := 0, nextReviewDate := now + 1,
          lastModified := now })],
        true, false, true⟩ := by
  unfold saveItem
  rw [h]
  rfl

/-- Witness for C4: saving into the empty store at now = 5 creates the
item due at 6. -/
theorem saveItem_new_witness :
    saveItem 5 "b1" "sentence" 2 "hello" [] =
      ⟨[("b1_sentence_2",
        { level := "b1", type := "sentence", id := 2, data := "hello", savedDate := 5,
          lastReviewed := none, reviewCount := 0, nextReviewDate := 6, lastModified := 5 })],
        true, false, true⟩ := by
  rw [saveItem_new 5 "b1" "sentence" 2 "hello" [] rfl]
  rfl

/-- C5: getDueItems returns exactly the store entries that pass the
level and type filters and whose nextReviewDate is at or before now
(inclusive), as a permutation of that filtered list, sorted ascending by
nextReviewDate; it returns only a list and touches no store. -/
theorem getDueItems_spec (now : Nat) (lf tf : FilterArg) (store : Store) :
    (getDueItems now lf tf store).Perm (List.filter (dueKeep now lf tf) store)
    ∧ (getDueItems now lf tf store).Pairwise
        (fun a b => a.2.nextReviewDate ≤ b.2.nextReviewDate)
    ∧ ∀ e, e ∈ getDueItems now lf tf store ↔
        e ∈ store ∧ keepFilter lf e.2.level = true ∧ keepFilter tf e.2.type = true
          ∧ e.2.nextReviewDate ≤ now := by
  refine ⟨List.perm_insertionSort dueLe _, List.sorted_insertionSort dueLe _, fun e => ?_⟩
  simp [getDueItems, List.mem_insertionSort, List.mem_filter, dueKeep, and_assoc]

/-- C9: getAllItems returns exactly the store entries passing the level
and type filters, with no due-date test, as a permutation of that filtered
list, sorted descending by savedDate; it returns only a list and touches
no store. -/
theorem getAllItems_spec (lf tf : FilterArg) (store : Store) :
    (getAllItems lf tf store).Perm (List.filter (allKeep lf tf) store)
    ∧ (getAllItems lf tf store).Pairwise
        (fun a b => b.2.savedDate ≤ a.2.savedDate)
    ∧ ∀ e, e ∈ getAllItems lf tf store ↔
        e ∈ store ∧ keepFilter lf e.2.level = true ∧ keepFilter tf e.2.type = true := by
  refine ⟨List.perm_insertionSort savedDesc _, List.sorted_insertionSort savedDesc _, fun e => ?_⟩
  simp [getAllItems, List.mem_insertionSort, List.mem_filter, allKeep]

/-- C7: byLevel of getStatistics always reports all six fixed levels,
each sub-report computed over the whole store and independent of the level
argument of the outer call, while the outer total, dueToday, reviewed and
mastered counters do respect the level filter. -/
theorem getStatistics_spec (now : Nat) (lf : FilterArg) (store : Store) :
    (getStatistics now lf store).byLevel = (getStatistics now .jsNull store).byLevel
    ∧ (getStatistics now lf store).byLevel =
        levels.map (fun lvl =>
          (lvl,
            { total := (getAllItems (.str lvl) .jsNull store).length
              dueToday := (getDueItems now (.str lvl) .jsNull store).length
              vocab := (List.filter (fun e => e.2.type == "vocab")
                  (getAllItems (.str lvl) .jsNull store)).length
              sentences := (List.filter (fun e => e.2.type == "sentence")
                  (getAllItems (.str lvl) .jsNull store)).length }))
    ∧ (getStatistics now lf store).total = (getAllItems lf .jsNull store).length
    ∧ (getStatistics now lf store).dueToday = (getDueItems now lf .jsNull store).length
    ∧ (getStatistics now lf store).reviewed =
        (List.filter (fun e => decide (0 < e.2.reviewCount))
          (getAllItems lf .jsNull store)).length
    ∧ (getStatistics now lf store).mastered =
        (List.filter (fun e => decide (4 ≤ e.2.reviewCount))
          (getAllItems lf .jsNull store)).length :=
  ⟨rfl, rfl, rfl, rfl, rfl, rfl⟩

/-- Helper: a falsy filter argument keeps every entry. -/
theorem keepFilter_falsy {filt : FilterArg} (h : truthy filt = false) (v : String) :
    keepFilter filt v = true := by
  simp [keepFilter, h]

/-- Helper: the null filter argument keeps every entry. -/
theorem keepFilter_null (v : String) : keepFilter .jsNull v = true := rfl

/-- C10: the optional filter arguments are tested by JS truthiness, not
presence: any falsy level or type value (null, the default for an omitted
or undefined argument, the empty string, the number 0) disables that
filter entirely, giving the same result as passing null, in both
getDueItems and getAllItems; any truthy value filters by strict equality,
so every returned entry strictly equals it on the corresponding field. -/
theorem filter_truthiness (now : Nat) (lf tf : FilterArg) (store : Store) :
    (truthy lf = false →
        getDueItems now lf tf store = getDueItems now .jsNull tf store
        ∧ getAllItems lf tf store = getAllItems .jsNull tf store)
    ∧ (truthy tf = false →
        getDueItems now lf tf store = getDueItems now lf .jsNull store
        ∧ getAllItems lf tf store = getAllItems lf .jsNull store)
    ∧ (truthy lf = true →
        ∀ e ∈ getAllItems lf tf store, strictEq lf e.2.level = true)
    ∧ (truthy tf = true →
        ∀ e ∈ getDueItems now lf tf store, strictEq tf e.2.type = true) := by
  refine ⟨fun h => ⟨?_, ?_⟩, fun h => ⟨?_, ?_⟩, fun h e he => ?_, fun h e he => ?_⟩
  · have hf : List.filter (dueKeep now lf tf) store
        = List.filter (dueKeep now .jsNull tf) store :=
      List.filter_congr (fun a _ => by simp [dueKeep, keepFilter_falsy h, keepFilter_null])
    unfold getDueItems
    rw [hf]
  · have hf : List.filter (allKeep lf tf) store
        = List.filter (allKeep .jsNull tf) store :=
      List.filter_congr (fun a _ => by simp [allKeep, keepFilter_falsy h, keepFilter_null])
    unfold getAllItems
    rw [hf]
  · have hf : List.filter (dueKeep now lf tf) store
        = List.filter (dueKeep now lf .jsNull) store :=
      List.filter_congr (fun a _ => by simp [dueKeep, keepFilter_falsy h, keepFilter_null])
    unfold getDueItems
    rw [hf]
  · have hf : List.filter (allKeep lf tf) store
        = List.filter (allKeep lf .jsNull) store :=
      List.filter_congr (fun a _ => by simp [allKeep, keepFilter_falsy h, keepFilter_null])
    unfold getAllItems
    rw [hf]
  · have hm := (List.mem_filter.mp ((List.mem_insertionSort savedDesc).mp he)).2
    simp [allKeep, keepFilter, h] at hm
    exact hm.1
  · have hm := (List.mem_filter.mp ((List.mem_insertionSort dueLe).mp he)).2
    simp [dueKeep, keepFilter, h] at hm
    exact hm.1.2

/-- Witness for C10: the falsy empty-string level behaves as no filter on
a concrete store, and a truthy level returns only strictly equal levels. -/
theorem filter_truthiness_witness :
    getAllItems (.str "") .jsNull [("a1_vocab_1", sampleItem)] =
        getAllItems .jsNull .jsNull [("a1_vocab_1", sampleItem)]
    ∧ strictEq (.str "a1") sampleItem.level = true :=
  ⟨((filter_truthiness 0 (.str "") .jsNull [("a1_vocab_1", sampleItem)]).1 (by decide)).2,
    (filter_truthiness 0 (.str "a1") .jsNull [("a1_vocab_1", sampleItem)]).2.2.1 (by decide)
      ("a1_vocab_1", sampleItem) (by decide)⟩

/-- Counterexample for C6: file contents parsing to the JSON array value
(for instance the file containing the two characters of an empty array) do
not have the object store shape, yet importData raises no alert, returns
true once confirmed, and replaces the persisted blob with the array. -/
theorem importData_nonobject_accepted :
    isObjShape (JsonValue.arr []) = false
    ∧ (importData (some (JsonValue.arr [])) true (JsonValue.obj [])).ret = true
    ∧ (importData (some (JsonValue.arr [])) true (JsonValue.obj [])).alerted = false
    ∧ (importData (some (JsonValue.arr [])) true (JsonValue.obj [])).blob = JsonValue.arr []
    ∧ (importData (some (JsonValue.arr [])) true (JsonValue.obj [])).persisted = true :=
  ⟨rfl, rfl, rfl, rfl, rfl⟩

/-- C6 amended: importData treats exactly a JSON parse failure as the
format error, surfacing an alert, returning false and leaving the
persisted blob unchanged; contents that parse to any JSON value at all,
object-shaped or not, are accepted and, once the overwrite is confirmed,
replace the blob with true returned, while a declined confirmation leaves
the blob unchanged and returns false. -/
theorem importData_spec (confirmed : Bool) (blob : JsonValue) :
    importData none confirmed blob = ⟨false, true, blob, false⟩
    ∧ ∀ d : JsonValue,
        importData (some d) true blob = ⟨true, false, d, true⟩
        ∧ importData (some d) false blob = ⟨false, false, blob, false⟩ :=
  ⟨rfl, fun _ => ⟨rfl, rfl⟩⟩

/-- Counterexample for C8: deleting a key absent from the store leaves
the store untouched and writes nothing, but emits no console output at
all, neither an error nor an info line, so the missing-key condition is
not logged by deleteItem. -/
theorem deleteItem_missing_not_logged :
    lookup "a1_vocab_9" [] = none
    ∧ (deleteItem "a1_vocab_9" []).store = []
    ∧ (deleteItem "a1_vocab_9" []).persisted = false
    ∧ ¬((deleteItem "a1_vocab_9" []).loggedError = true
        ∨ (deleteItem "a1_vocab_9" []).loggedInfo = true) := by
  decide

/-- C8 amended: on a key absent from the store, reviewItem logs an error
and is otherwise a no-op returning without any write, deleteItem is
silently a no-op with no write and no log at all, and in general
deleteItem persists exactly when the key was present. -/
theorem missing_key_spec (now : Nat) (key : String) (rem : Bool)
    (store : Store) (h : lookup key store = none) :
    reviewItem now key rem store = ⟨store, false, true, false⟩
    ∧ deleteItem key store = ⟨store, false, false, false⟩
    ∧ ∀ (k : String) (s : Store), (deleteItem k s).persisted = (lookup k s).isSome := by
  refine ⟨?_, ?_, fun k s => ?_⟩
  · unfold reviewItem
    rw [h]
  · unfold deleteItem
    rw [h]
  · unfold deleteItem
    cases lookup k s <;> rfl

/-- Witness for C8 amended: reviewing an absent key over a one-item store
logs the error, writes nothing and leaves the store as it was. -/
theorem missing_key_spec_witness :
    reviewItem 7 "b2_vocab_9" true [("a1_vocab_1", sampleItem)] =
      ⟨[("a1_vocab_1", sampleItem)], false, true, false⟩ :=
  (missing_key_spec 7 "b2_vocab_9" true [("a1_vocab_1", sampleItem)] rfl).1

end SpacedRepetition
